import Mathlib

/-!
Shallow embedding of the task-orchestration core of the content-api
repository (src/models.py, src/config.py,
src/services/generative_analysis_service.py, src/helpers/enhance_helpers.py,
src/main.py), together with theorems settling the frozen claims about it.

Modelling conventions:
* Python dataclass-like pydantic models become Lean structures; pydantic
  `extra = "allow"` extension fields become an association list
  `model_extra : List (String × String)` (extra values are restricted to
  strings; `str(value)` on them is the identity and cannot raise).
* The generative model (Gemini) is an external collaborator; the outcome of
  one `model.generate_content` call is abstracted as `ModelOutcome`; a whole
  run consumes an oracle `Nat → ModelOutcome` indexed by the number of calls
  made so far.
* `time.monotonic()` is modelled by a `Nat` clock in milliseconds that
  advances only at the `asyncio.sleep` calls of the scheduler
  (0.1 s ↦ 100, 0.05 s ↦ 50); generation calls take zero model time.
* In-place mutation of content items becomes explicit state passing; the
  alias returned by `get_or_create_output_item` is modelled by the index of
  the entry in the `generated_outputs` list.
-/

namespace ContentApi

/-- Embeds the scheduler-relevant fields of `Settings` from src/config.py
(`max_api_retries: int = 3`, `max_data_dependency_retries: int = 5`,
`retry_cooldown_seconds: int = 60`). -/
structure Settings where
  max_api_retries : Nat := 3
  max_data_dependency_retries : Nat := 5
  retry_cooldown_seconds : Nat := 60
deriving Repr, DecidableEq

/-- Outcome of one call to the external generative model
(`self.model.generate_content`): either a response whose `.text` attribute is
the given string, or one of the exception classes caught in
`generate_text` (src/services/generative_analysis_service.py lines 82-93). -/
inductive ModelOutcome where
  | response (text : String)
  | raiseResourceExhausted (msg : String)
  | raiseGoogleAPIError (msg : String)
  | raiseOther (msg : String)
deriving Repr, DecidableEq

/-- Embeds `GeneratedContentItem` from src/models.py. -/
structure GeneratedContentItem where
  prompt_name : String
  output : Option String := none
  status : Option String := none
deriving Repr, DecidableEq

/-- Embeds `PromptItem` from src/models.py. -/
structure PromptItem where
  prompt_name : String
  prompt_template : String
  lesson_properties_to_append : List String := []
  output_json_format_example_str : Option String := none
deriving Repr, DecidableEq

/-- Embeds `Slide` from src/models.py (`model_config = {"extra": "allow"}`
becomes the `model_extra` association list). -/
structure Slide where
  name : Option String := none
  content : String
  generated_outputs : List GeneratedContentItem := []
  model_extra : List (String × String) := []
deriving Repr, DecidableEq

/-- Embeds `LessonSimple` from src/models.py.  The two `Optional[float]`
fields (`iclo_slide`, `strategy_application_slide`) are omitted: they are
never read by any code under verification and floating point is out of
scope. -/
structure LessonSimple where
  timestamp : Option String := none
  file_id : Option String := none
  url : Option String := none
  folder_path : Option String := none
  file_name : Option String := none
  lesson_date : Option String := none
  learning_objective : Option String := none
  standards : Option String := none
  clc_element : Option String := none
  strategy_application_element : Option String := none
  content : String
  generated_outputs : List GeneratedContentItem := []
  model_extra : List (String × String) := []
deriving Repr, DecidableEq

/-- The duck-typed interface `ProcessableContentItem = Union[Slide,
LessonSimple]` of src/helpers/enhance_helpers.py: the helpers only read
`.content`, `.generated_outputs`, `.model_extra` and write back
`.generated_outputs`.  `outputs_set` records that writing the list then
reading it yields the written list (true for plain record update). -/
class ProcessableContentItem (α : Type) where
  content : α → String
  generated_outputs : α → List GeneratedContentItem
  set_generated_outputs : α → List GeneratedContentItem → α
  model_extra : α → List (String × String)
  outputs_set : ∀ (a : α) (l : List GeneratedContentItem),
    generated_outputs (set_generated_outputs a l) = l

instance : ProcessableContentItem Slide where
  content s := s.content
  generated_outputs s := s.generated_outputs
  set_generated_outputs s l := { s with generated_outputs := l }
  model_extra s := s.model_extra
  outputs_set := by intro a l; rfl

instance : ProcessableContentItem LessonSimple where
  content s := s.content
  generated_outputs s := s.generated_outputs
  set_generated_outputs s l := { s with generated_outputs := l }
  model_extra s := s.model_extra
  outputs_set := by intro a l; rfl

open ProcessableContentItem

/-- Python `str.title()` restricted to its behaviour on ASCII text: the first
alphabetic character of each alphabetic run is uppercased, the rest
lowercased (used for `prop_key_to_append.replace("_", " ").title()`). -/
def pyTitle (s : String) : String :=
  String.mk (s.toList.foldl
    (fun (acc : List Char × Bool) c =>
      if c.isAlpha then
        (acc.1 ++ [if acc.2 then c.toLower else c.toUpper], true)
      else
        (acc.1 ++ [c], false))
    ([], false)).1

/-- Python `str.strip()` with no argument: removes leading and trailing
whitespace (structural implementation; kernel-reducible unlike
`String.trim`). -/
def pyStrip (s : String) : String :=
  String.mk
    ((s.toList.dropWhile Char.isWhitespace).reverse.dropWhile
      Char.isWhitespace).reverse

/-- Python `s.replace("_", " ")` for the single-character pattern used by
the resolver. -/
def pyReplaceUnderscore (s : String) : String :=
  String.mk (s.toList.map (fun c => if c = '_' then ' ' else c))

/-- Python `a or b` for `a : Optional[str]`: `b` is used when `a` is `None`
or the empty string (both falsy). -/
def pyOr (a : Option String) (b : String) : String :=
  match a with
  | none => b
  | some s => if s = "" then b else s

/-- Lookup of a pydantic `model_extra` key (`prop_key in item.model_extra`
followed by `item.model_extra[prop_key]`); an empty dict is falsy, which
coincides with the lookup returning `none`. -/
def lookupExtra : List (String × String) → String → Option String
  | [], _ => none
  | (k, v) :: rest, key => if k = key then some v else lookupExtra rest key

/-- The `for gen_output in item.generated_outputs: if gen_output.prompt_name
== name` search pattern used throughout the helpers: first matching entry. -/
def findOutput : List GeneratedContentItem → String → Option GeneratedContentItem
  | [], _ => none
  | g :: rest, n => if g.prompt_name = n then some g else findOutput rest n

/-- Index of the first `GeneratedContentItem` with the given `prompt_name`
(models the alias Python holds onto the mutable entry). -/
def find_output_index : List GeneratedContentItem → String → Option Nat
  | [], _ => none
  | g :: rest, n =>
    if g.prompt_name = n then some 0 else (find_output_index rest n).map (· + 1)

/-- Pointwise update of the i-th list entry (models mutating the aliased
`GeneratedContentItem` in place). -/
def list_update_at : List GeneratedContentItem → Nat →
    (GeneratedContentItem → GeneratedContentItem) → List GeneratedContentItem
  | [], _, _ => []
  | g :: rest, 0, f => f g :: rest
  | g :: rest, n + 1, f => g :: list_update_at rest n f

/-- Number of generated outputs carrying a given prompt name. -/
def countOutputs : List GeneratedContentItem → String → Nat
  | [], _ => 0
  | g :: rest, n => (if g.prompt_name = n then 1 else 0) + countOutputs rest n

/-- Embeds `PromptConstructionStatus` from src/helpers/enhance_helpers.py. -/
inductive PromptConstructionStatus where
  | SUCCESS
  | MISSING_DEPENDENCY
deriving Repr, DecidableEq

/-- The body of the `for prop_key_to_append in
prompt_item.lesson_properties_to_append` loop of `_construct_full_prompt`
(src/helpers/enhance_helpers.py lines 30-68), with the accumulated
`full_prompt_parts` passed explicitly.  The branch ladder is, in order:
the literal "content" marker, a known prompt name of the request, a
`model_extra` field, and an unresolvable key that is skipped with a
warning.  The `break` on an unmet dependency becomes an early return of
`(MISSING_DEPENDENCY, none)`. -/
def construct_prompt_parts {α : Type} [ProcessableContentItem α] (item : α)
    (known : List String) :
    List String → List String → PromptConstructionStatus × Option String
  | parts, [] => (.SUCCESS, some (String.intercalate "\n" parts))
  | parts, k :: rest =>
    if k = "content" then
      construct_prompt_parts item known
        (parts ++ ["---\nContent:\n" ++ pyStrip (content item)]) rest
    else if k ∈ known then
      match findOutput (generated_outputs item) k with
      | some g =>
        if g.status = some "SUCCESS" ∧ g.output ≠ none then
          construct_prompt_parts item known
            (parts ++ ["---\nOutput from \x27" ++ k ++ "\x27:\n" ++
              pyStrip (g.output.getD "")]) rest
        else (.MISSING_DEPENDENCY, none)
      | none => (.MISSING_DEPENDENCY, none)
    else
      match lookupExtra (model_extra item) k with
      | some v =>
        construct_prompt_parts item known
          (parts ++ ["---\n" ++ pyTitle (pyReplaceUnderscore k) ++ ":\n" ++
            pyStrip v]) rest
      | none => construct_prompt_parts item known parts rest

/-- The `{p.prompt_name for p in all_request_prompts}` set of
`_construct_full_prompt`. -/
def known_prompt_names (ps : List PromptItem) : List String :=
  ps.map (fun p => p.prompt_name)

/-- Embeds `_construct_full_prompt` from src/helpers/enhance_helpers.py
(lines 21-73): resolves the dependency list of a prompt against the current
state of a content item. -/
def _construct_full_prompt {α : Type} [ProcessableContentItem α]
    (prompt_item : PromptItem) (current_content_item_state : α)
    (all_request_prompts : List PromptItem) :
    PromptConstructionStatus × Option String :=
  construct_prompt_parts current_content_item_state
    (known_prompt_names all_request_prompts)
    [pyStrip prompt_item.prompt_template]
    prompt_item.lesson_properties_to_append

/-- A dependency reference `k` takes the "not yet met" path of
`_construct_full_prompt` on `item`: it is not the literal content marker, it
names a known prompt, and that prompt's output on the item is absent or not
a `SUCCESS` with non-null output. -/
def dependency_unmet {α : Type} [ProcessableContentItem α] (item : α)
    (known : List String) (k : String) : Bool :=
  if k = "content" then false
  else if k ∈ known then
    match findOutput (generated_outputs item) k with
    | none => true
    | some g => if g.status = some "SUCCESS" ∧ g.output ≠ none then false else true
  else false

/-- Embeds `GenerativeAnalysisService.generate_text` from
src/services/generative_analysis_service.py (lines 52-93).  Note the
source returns `(response.text, None)` on a successful call — the raw
model text in the first component — and an `"ERROR_*"` code with a message
otherwise. -/
def generate_text (outcome : ModelOutcome) (prompt_text : String) :
    String × Option String :=
  if prompt_text = "" ∨ pyStrip prompt_text = "" then
    ("ERROR_INPUT", some "Empty or invalid prompt text provided.")
  else
    match outcome with
    | .response t =>
      if t ≠ "" then (t, none)
      else ("ERROR_NO_RESPONSE", some "No text was generated in the response.")
    | .raiseResourceExhausted m =>
      ("ERROR_RESOURCE_EXHAUSTED", some ("Resource exhausted: " ++ m))
    | .raiseGoogleAPIError m =>
      ("ERROR_GOOGLE_API", some ("Google API error: " ++ m))
    | .raiseOther m =>
      ("ERROR_API", some ("Unexpected error during API call: " ++ m))

/-- Embeds `get_or_create_output_item` from src/helpers/enhance_helpers.py
(lines 128-134) and the identical `get_extraction_output_item` of
src/helpers/extract_helpers.py: returns the updated item, the index of the
(found or appended) entry — modelling the alias Python returns — and the
`created` flag. -/
def get_or_create_output_item {α : Type} [ProcessableContentItem α]
    (content_item : α) (prompt_name : String) : α × Nat × Bool :=
  match find_output_index (generated_outputs content_item) prompt_name with
  | some i => (content_item, i, false)
  | none =>
    (set_generated_outputs content_item
      (generated_outputs content_item ++ [{ prompt_name := prompt_name }]),
     (generated_outputs content_item).length, true)

/-- In-place mutation of the aliased output entry
(`output_item.status = ...` / `output_item.output = ...`). -/
def updateOutputAt {α : Type} [ProcessableContentItem α] (item : α) (i : Nat)
    (f : GeneratedContentItem → GeneratedContentItem) : α :=
  set_generated_outputs item (list_update_at (generated_outputs item) i f)

/-- A task sitting on `api_retry_queue`: the source builds the dict
`{**queue_context, "prompt_item": ..., "full_prompt_text": ...,
"api_attempt_count": ...}` (src/helpers/enhance_helpers.py line 116); the
dict merge is modelled by nesting the endpoint-specific `queue_context`. -/
structure RetryTask (χ : Type) where
  queue_context : χ
  prompt_item : PromptItem
  full_prompt_text : String
  api_attempt_count : Nat
deriving Repr, DecidableEq

/-- Embeds `_execute_api_call_for_prompt` from
src/helpers/enhance_helpers.py (lines 81-126).  It performs one
`generate_text` call (oracle outcome supplied by the caller), writes the
resulting pair into the item's output entry for the prompt, and applies the
success / retryable / permanent classification; returns the updated item,
the updated `api_retry_queue` and the boolean the source returns (`True`
when a retryable status was seen). -/
def _execute_api_call_for_prompt {α χ : Type} [ProcessableContentItem α]
    (cfg : Settings) (outcome : ModelOutcome) (item_to_process : α)
    (prompt_item : PromptItem) (full_prompt_text : String)
    (api_attempt_count : Nat) (api_retry_queue : List (RetryTask χ))
    (queue_context : χ) : α × List (RetryTask χ) × Bool :=
  let prompt_name := prompt_item.prompt_name
  let gr := generate_text outcome full_prompt_text
  let status := gr.1
  let api_output_data := gr.2
  let goc := get_or_create_output_item item_to_process prompt_name
  let item1 := updateOutputAt goc.1 goc.2.1
    (fun g => { g with status := some status, output := api_output_data })
  if status = "SUCCESS" then
    (item1, api_retry_queue, false)
  else if status = "RATE_LIMIT" ∨ status = "ERROR_API" then
    if api_attempt_count + 1 < cfg.max_api_retries then
      let retry_task : RetryTask χ :=
        { queue_context := queue_context, prompt_item := prompt_item,
          full_prompt_text := full_prompt_text,
          api_attempt_count := api_attempt_count + 1 }
      let item2 := updateOutputAt item1 goc.2.1
        (fun g => { g with status := some "PENDING_API_RETRY" })
      (item2, api_retry_queue ++ [retry_task], true)
    else
      -- max retries reached: the explanatory err_msg is only printed,
      -- the entry keeps the status/output written above
      (item1, api_retry_queue, true)
  else
    (item1, api_retry_queue, false)

/-- Drives one API-execution task to completion through
`_execute_api_call_for_prompt`, re-invoking while the helper re-enqueues a
retry task (this is what the scheduler's retry queue does to a task no
other task interleaves with).  Returns the final item and the number of
invocations of the generation call.  Structural fuel; `run_api_task`
supplies `max_api_retries + 1`, which the retry-counting theorems show is
never exhausted. -/
def run_api_task_aux {α χ : Type} [ProcessableContentItem α] (cfg : Settings)
    (outcomes : Nat → ModelOutcome) (p : PromptItem) (text : String) (ctx : χ) :
    Nat → α → Nat → Nat → α × Nat
  | 0, item, _, calls => (item, calls)
  | fuel + 1, item, attempt, calls =>
    let r := _execute_api_call_for_prompt cfg (outcomes calls) item p text
      attempt ([] : List (RetryTask χ)) ctx
    match r.2.1 with
    | [] => (r.1, calls + 1)
    | t :: _ => run_api_task_aux cfg outcomes p text ctx fuel r.1
        t.api_attempt_count (calls + 1)

/-- An API-execution task run from `api_attempt_count = 0` until the helper
stops re-enqueuing it. -/
def run_api_task {α χ : Type} [ProcessableContentItem α] (cfg : Settings)
    (outcomes : Nat → ModelOutcome) (p : PromptItem) (text : String) (ctx : χ)
    (item : α) : α × Nat :=
  run_api_task_aux cfg outcomes p text ctx (cfg.max_api_retries + 1) item 0 0

/-- Embeds `Section` from src/models.py. -/
structure Course.Sect where
  name : Option String := none
  slides : List Slide
  model_extra : List (String × String) := []
deriving Repr, DecidableEq

/-- Embeds `LessonUnit` from src/models.py. -/
structure LessonUnit where
  lesson_id : Option String := none
  title : Option String := none
  sections : List Course.Sect
  model_extra : List (String × String) := []
deriving Repr, DecidableEq

/-- Embeds `EnhanceUnitsRequest` from src/models.py. -/
structure EnhanceUnitsRequest where
  prompts : Option (List PromptItem) := none
  lessons : List LessonUnit
deriving Repr, DecidableEq

/-- Embeds `EnhanceUnitsResponse` from src/models.py. -/
structure EnhanceUnitsResponse where
  lessons : List LessonUnit
deriving Repr, DecidableEq

/-- The `queue_context` dict built in `enhance_units_endpoint`
(src/main.py lines 254 and 305): `{"type": "unit_slide", "lesson_idx": ...,
"section_idx": ..., "slide_idx": ...}`. -/
structure UnitsQueueContext where
  type : String
  lesson_idx : Nat
  section_idx : Nat
  slide_idx : Nat
deriving Repr, DecidableEq

/-- A task on `data_dependency_deferred_queue` of `enhance_units_endpoint`
(the `task_context` dict of src/main.py lines 213-220). -/
structure UnitsDataTask where
  type : String
  lesson_idx : Nat
  section_idx : Nat
  slide_idx : Nat
  prompt_item : PromptItem
  attempt_count : Nat
deriving Repr, DecidableEq

/-- The full mutable state of one `enhance_units_endpoint` scheduling run.
`clock` models `time.monotonic()` in milliseconds (advancing only at the
`asyncio.sleep` calls); `api_calls` is the oracle-consumption index counting
`generate_text` invocations and has no counterpart in the source state. -/
structure UnitsState where
  enhanced_units_output : List LessonUnit
  api_retry_queue : List (RetryTask UnitsQueueContext)
  data_dependency_deferred_queue : List UnitsDataTask
  last_rate_limit_event_time : Option Nat
  processing_cycles : Nat
  clock : Nat
  api_calls : Nat
deriving Repr, DecidableEq

/-- `enhanced_units_output[l].sections[s].slides[sl]` (indices produced by
the initial enumeration are always in range; a default slide totalizes the
lookup). -/
def getSlide (units : List LessonUnit) (l s sl : Nat) : Slide :=
  (((units.getD l { sections := [] }).sections.getD s { slides := [] }).slides.getD sl
    { content := "" })

/-- Writing the mutated slide back (`item_to_process` is an alias into the
nested lists in Python; here an explicit functional update). -/
def setSlide (units : List LessonUnit) (l s sl : Nat) (slide : Slide) :
    List LessonUnit :=
  let lesson := units.getD l { sections := [] }
  let sect := lesson.sections.getD s { slides := [] }
  let newSect := { sect with slides := sect.slides.set sl slide }
  let newLesson := { lesson with sections := lesson.sections.set s newSect }
  units.set l newLesson

/-- The repeated cooldown test `last_rate_limit_event_time and
(time.monotonic() - last_rate_limit_event_time <
settings.retry_cooldown_seconds)` (src/main.py lines 241-242, 297-298,
340-341 and the /enhance/lessons copies).  Python truthiness makes a
timestamp of exactly `0.0` behave like `None`, hence the `t ≠ 0` conjunct;
the clock is in milliseconds. -/
def cooldown_active (cfg : Settings) (last : Option Nat) (now : Nat) : Bool :=
  match last with
  | none => false
  | some t => t ≠ 0 ∧ now - t < cfg.retry_cooldown_seconds * 1000

/-- `item_to_process.name or f"UnitL{l_idx}S{s_idx}Sl{sl_idx}"`
(src/main.py lines 250 and 281). -/
def units_item_id_log (slide : Slide) (l s sl : Nat) : String :=
  pyOr slide.name
    ("UnitL" ++ toString l ++ "S" ++ toString s ++ "Sl" ++ toString sl)

/-- The bottom of the `/enhance/units` loop body (src/main.py lines
338-345), reached when the data-dependency queue is empty and the retry
queue is empty or gated by cooldown: sleeps out the remaining cooldown when
it exceeds 0.1 s. -/
def unitsIdlePhase (cfg : Settings) (st : UnitsState) : UnitsState :=
  if st.api_retry_queue = [] ∧ st.data_dependency_deferred_queue = [] ∧
      0 < st.processing_cycles then
    st
  else if (st.api_retry_queue = [] ∨
      cooldown_active cfg st.last_rate_limit_event_time st.clock) ∧
      st.data_dependency_deferred_queue = [] then
    if cooldown_active cfg st.last_rate_limit_event_time st.clock then
      let remaining := cfg.retry_cooldown_seconds * 1000 -
        (st.clock - (st.last_rate_limit_event_time.getD 0))
      if 100 < remaining then { st with clock := st.clock + remaining } else st
    else st
  else st

/-- The `if data_dependency_deferred_queue:` section of the
`/enhance/units` loop body (src/main.py lines 273-336): pops the head
dependency-check task, resolves it, and dispatches on the construction
status; every path through the section ends the iteration (`continue`). -/
def unitsDataPhase (cfg : Settings) (oracle : Nat → ModelOutcome)
    (active_prompts : List PromptItem) (st : UnitsState) : UnitsState :=
  match st.data_dependency_deferred_queue with
  | [] => unitsIdlePhase cfg st
  | data_task :: rest =>
    if data_task.type = "unit_slide" then
      let l := data_task.lesson_idx
      let s := data_task.section_idx
      let sl := data_task.slide_idx
      let dd_attempts := data_task.attempt_count
      let item_being_processed := getSlide st.enhanced_units_output l s sl
      let prompt_name := data_task.prompt_item.prompt_name
      let item_id_log := units_item_id_log item_being_processed l s sl
      let cres := _construct_full_prompt data_task.prompt_item
        item_being_processed active_prompts
      if cres.1 = PromptConstructionStatus.SUCCESS then
        match cres.2 with
        | none =>
          -- construction success but no text: defensive guard, `continue`
          -- without the trailing sleep (src/main.py lines 290-295)
          let goc := get_or_create_output_item item_being_processed prompt_name
          let item2 := updateOutputAt goc.1 goc.2.1 (fun g =>
            { g with status := some "ERROR_INTERNAL_CONSTRUCTION",
                     output := some "Internal error during prompt construction." })
          { st with data_dependency_deferred_queue := rest,
                    enhanced_units_output :=
                      setSlide st.enhanced_units_output l s sl item2 }
        | some full_prompt_text =>
          if cooldown_active cfg st.last_rate_limit_event_time st.clock then
            -- cooldown-driven deferral: same attempt count, sleep 0.1
            { st with data_dependency_deferred_queue := rest ++ [data_task],
                      clock := st.clock + 100 }
          else
            let ctx : UnitsQueueContext :=
              { type := "unit_slide", lesson_idx := l, section_idx := s,
                slide_idx := sl }
            let r := _execute_api_call_for_prompt cfg (oracle st.api_calls)
              item_being_processed data_task.prompt_item full_prompt_text 0
              st.api_retry_queue ctx
            let st1 := { st with
              data_dependency_deferred_queue := rest,
              enhanced_units_output :=
                setSlide st.enhanced_units_output l s sl r.1,
              api_retry_queue := r.2.1,
              api_calls := st.api_calls + 1 }
            let st2 := if r.2.2 then
                { st1 with last_rate_limit_event_time := some st1.clock }
              else st1
            { st2 with clock := st2.clock + 50 }
      else
        -- MISSING_DEPENDENCY (src/main.py lines 319-332)
        if dd_attempts + 1 < cfg.max_data_dependency_retries then
          let goc := get_or_create_output_item item_being_processed prompt_name
          let item2 := updateOutputAt goc.1 goc.2.1 (fun g =>
            { g with status := some "DATA_DEPENDENCY_PENDING",
                     output := some ("Waiting for dependent data (attempt " ++
                       toString (dd_attempts + 1) ++ ").") })
          { st with
            data_dependency_deferred_queue :=
              rest ++ [{ data_task with attempt_count := dd_attempts + 1 }],
            enhanced_units_output :=
              setSlide st.enhanced_units_output l s sl item2,
            clock := st.clock + 50 }
        else
          let err_msg := "Max data dependency retries (" ++
            toString cfg.max_data_dependency_retries ++ ") for \x27" ++
            prompt_name ++ "\x27 on item \x27" ++ item_id_log ++ "\x27."
          let goc := get_or_create_output_item item_being_processed prompt_name
          let item2 := updateOutputAt goc.1 goc.2.1 (fun g =>
            { g with status := some "DATA_DEPENDENCY_FAILED",
                     output := some err_msg })
          { st with
            data_dependency_deferred_queue := rest,
            enhanced_units_output :=
              setSlide st.enhanced_units_output l s sl item2,
            clock := st.clock + 50 }
    else
      -- not a unit_slide task: put it back (dead code in the source; the
      -- appendleft of the popped head leaves the queue unchanged)
      { st with data_dependency_deferred_queue := data_task :: rest,
                clock := st.clock + 50 }

/-- One full iteration of the `/enhance/units` main loop body after the
cycle-counter bookkeeping (src/main.py lines 240-345).  The retry queue has
priority: when it is non-empty and no cooldown is active its head is
executed and the iteration ends; otherwise control falls through to the
data-dependency section. -/
def unitsStepBody (cfg : Settings) (oracle : Nat → ModelOutcome)
    (active_prompts : List PromptItem) (st : UnitsState) : UnitsState :=
  match st.api_retry_queue with
  | [] => unitsDataPhase cfg oracle active_prompts st
  | api_task :: rest_api =>
    if cooldown_active cfg st.last_rate_limit_event_time st.clock then
      unitsDataPhase cfg oracle active_prompts st
    else
      if api_task.queue_context.type = "unit_slide" then
        let l := api_task.queue_context.lesson_idx
        let s := api_task.queue_context.section_idx
        let sl := api_task.queue_context.slide_idx
        let item_to_process := getSlide st.enhanced_units_output l s sl
        let r := _execute_api_call_for_prompt cfg (oracle st.api_calls)
          item_to_process api_task.prompt_item api_task.full_prompt_text
          api_task.api_attempt_count rest_api api_task.queue_context
        let st1 := { st with
          enhanced_units_output := setSlide st.enhanced_units_output l s sl r.1,
          api_retry_queue := r.2.1,
          api_calls := st.api_calls + 1 }
        let st2 := if r.2.2 then
            { st1 with last_rate_limit_event_time := some st1.clock }
          else st1
        { st2 with clock := st2.clock + 100 }
      else
        { st with api_retry_queue := api_task :: rest_api,
                  clock := st.clock + 100 }

/-- The `while data_dependency_deferred_queue or api_retry_queue:` loop of
`/enhance/units` (src/main.py lines 234-345): increments the cycle counter,
breaks once it exceeds `max_cycles`, otherwise runs one body iteration.
The source loop is unbounded; structural fuel is supplied by the caller and
the termination theorem shows `max_cycles + 1` fuel already reaches the
loop's own exit. -/
def unitsLoop (cfg : Settings) (oracle : Nat → ModelOutcome)
    (active_prompts : List PromptItem) (max_cycles : Nat) :
    Nat → UnitsState → UnitsState
  | 0, st => st
  | fuel + 1, st =>
    if st.data_dependency_deferred_queue = [] ∧ st.api_retry_queue = [] then st
    else
      let st1 := { st with processing_cycles := st.processing_cycles + 1 }
      if max_cycles < st1.processing_cycles then st1
      else unitsLoop cfg oracle active_prompts max_cycles fuel
        (unitsStepBody cfg oracle active_prompts st1)

/-- The post-loop drain of `/enhance/units` (src/main.py lines 347-357):
every task still sitting on the data-dependency queue whose output entry is
still pending or has a falsy status is forced to `DATA_DEPENDENCY_TIMEOUT`.
Tasks left on `api_retry_queue` are not touched. -/
def unitsDrain (st : UnitsState) : UnitsState :=
  if st.data_dependency_deferred_queue = [] ∧ st.api_retry_queue = [] then st
  else
    st.data_dependency_deferred_queue.foldl
      (fun acc task =>
        if task.type = "unit_slide" then
          let l := task.lesson_idx
          let s := task.section_idx
          let sl := task.slide_idx
          let item_left := getSlide acc.enhanced_units_output l s sl
          let goc := get_or_create_output_item item_left task.prompt_item.prompt_name
          let entry := (generated_outputs goc.1).getD goc.2.1
            { prompt_name := task.prompt_item.prompt_name }
          let item2 :=
            if entry.status = some "DATA_DEPENDENCY_PENDING" ∨
                entry.status = none ∨ entry.status = some "" then
              updateOutputAt goc.1 goc.2.1 (fun g =>
                { g with status := some "DATA_DEPENDENCY_TIMEOUT",
                         output := some "Processing cycle limit reached while waiting for data." })
            else goc.1
          { acc with enhanced_units_output :=
              setSlide acc.enhanced_units_output l s sl item2 }
        else acc)
      st

/-- The initial seeding of `data_dependency_deferred_queue`
(src/main.py lines 207-222): one dependency-check task per
(lesson, section, slide, prompt), `attempt_count = 0`. -/
def unitsInitQueue (active_prompts : List PromptItem)
    (units : List LessonUnit) : List UnitsDataTask :=
  (units.enum.flatMap fun le =>
    (le.2.sections.enum.flatMap fun se =>
      (se.2.slides.enum.flatMap fun sle =>
        active_prompts.map fun p =>
          { type := "unit_slide", lesson_idx := le.1, section_idx := se.1,
            slide_idx := sle.1, prompt_item := p, attempt_count := 0 })))

/-- Embeds the `/enhance/units` endpoint handler `enhance_units_endpoint`
(src/main.py lines 186-360): early returns for an empty lesson list, a
missing/empty prompt list and a slide-less request; otherwise deep-copies
the input (the identity on pure values), seeds the dependency queue, runs
the dual-queue scheduler with the `max_cycles` budget, applies the timeout
drain and returns the mutated copies. -/
def enhance_units_endpoint (cfg : Settings) (oracle : Nat → ModelOutcome)
    (request : EnhanceUnitsRequest) : EnhanceUnitsResponse :=
  if request.lessons = [] then { lessons := [] }
  else
    let active_prompts := request.prompts.getD []
    if active_prompts = [] then
      { lessons := request.lessons }
    else
      let enhanced_units_output := request.lessons
      let initTasks := unitsInitQueue active_prompts enhanced_units_output
      let total_slide_prompts := initTasks.length
      if total_slide_prompts = 0 then { lessons := enhanced_units_output }
      else
        let max_cycles := total_slide_prompts *
          (cfg.max_api_retries + cfg.max_data_dependency_retries + 5)
        let st0 : UnitsState :=
          { enhanced_units_output := enhanced_units_output,
            api_retry_queue := [],
            data_dependency_deferred_queue := initTasks,
            last_rate_limit_event_time := none,
            processing_cycles := 0, clock := 0, api_calls := 0 }
        let stF := unitsLoop cfg oracle active_prompts max_cycles
          (max_cycles + 1) st0
        let stD := unitsDrain stF
        { lessons := stD.enhanced_units_output }

/-- Embeds `EnhanceLessonsRequest` from src/models.py. -/
structure EnhanceLessonsRequest where
  prompts : Option (List PromptItem) := none
  lessons : List LessonSimple
deriving Repr, DecidableEq

/-- Embeds `EnhanceLessonsResponse` from src/models.py. -/
structure EnhanceLessonsResponse where
  lessons : List LessonSimple
deriving Repr, DecidableEq

/-- The `queue_context` dict built in `enhance_simple_lessons_endpoint`
(src/main.py lines 426 and 477): `{"type": "lesson_simple",
"lesson_simple_idx": ...}`. -/
structure LessonsQueueContext where
  type : String
  lesson_simple_idx : Nat
deriving Repr, DecidableEq

/-- A task on `data_dependency_deferred_queue` of
`enhance_simple_lessons_endpoint` (src/main.py lines 387-392). -/
structure LessonsDataTask where
  type : String
  lesson_simple_idx : Nat
  prompt_item : PromptItem
  attempt_count : Nat
deriving Repr, DecidableEq

/-- The mutable state of one `enhance_simple_lessons_endpoint` run (same
conventions as `UnitsState`). -/
structure LessonsState where
  enhanced_simple_lessons_output : List LessonSimple
  api_retry_queue : List (RetryTask LessonsQueueContext)
  data_dependency_deferred_queue : List LessonsDataTask
  last_rate_limit_event_time : Option Nat
  processing_cycles : Nat
  clock : Nat
  api_calls : Nat
deriving Repr, DecidableEq

/-- `enhanced_simple_lessons_output[ls_idx]` totalized with a default. -/
def getLesson (lessons : List LessonSimple) (i : Nat) : LessonSimple :=
  lessons.getD i { content := "" }

/-- `getattr(item, "file_name", None) or getattr(item, "lesson_id", None)
or f"LessonSimple{ls_idx}"` (src/main.py lines 420-422): `lesson_id` is not
a declared `LessonSimple` field, so the second getattr reads a pydantic
extra field when present. -/
def lessons_item_id_log (lesson : LessonSimple) (i : Nat) : String :=
  pyOr lesson.file_name
    (pyOr (lookupExtra lesson.model_extra "lesson_id")
      ("LessonSimple" ++ toString i))

/-- The bottom of the `/enhance/lessons` loop body (src/main.py lines
509-516), identical to the units variant. -/
def lessonsIdlePhase (cfg : Settings) (st : LessonsState) : LessonsState :=
  if st.api_retry_queue = [] ∧ st.data_dependency_deferred_queue = [] ∧
      0 < st.processing_cycles then
    st
  else if (st.api_retry_queue = [] ∨
      cooldown_active cfg st.last_rate_limit_event_time st.clock) ∧
      st.data_dependency_deferred_queue = [] then
    if cooldown_active cfg st.last_rate_limit_event_time st.clock then
      let remaining := cfg.retry_cooldown_seconds * 1000 -
        (st.clock - (st.last_rate_limit_event_time.getD 0))
      if 100 < remaining then { st with clock := st.clock + remaining } else st
    else st
  else st

/-- The data-dependency section of the `/enhance/lessons` loop body
(src/main.py lines 443-507). -/
def lessonsDataPhase (cfg : Settings) (oracle : Nat → ModelOutcome)
    (active_prompts : List PromptItem) (st : LessonsState) : LessonsState :=
  match st.data_dependency_deferred_queue with
  | [] => lessonsIdlePhase cfg st
  | data_task :: rest =>
    if data_task.type = "lesson_simple" then
      let ls := data_task.lesson_simple_idx
      let dd_attempts := data_task.attempt_count
      let item_being_processed := getLesson st.enhanced_simple_lessons_output ls
      let prompt_name := data_task.prompt_item.prompt_name
      let item_id_log := lessons_item_id_log item_being_processed ls
      let cres := _construct_full_prompt data_task.prompt_item
        item_being_processed active_prompts
      if cres.1 = PromptConstructionStatus.SUCCESS then
        match cres.2 with
        | none =>
          let goc := get_or_create_output_item item_being_processed prompt_name
          let item2 := updateOutputAt goc.1 goc.2.1 (fun g =>
            { g with status := some "ERROR_INTERNAL_CONSTRUCTION",
                     output := some "Internal error during prompt construction." })
          { st with data_dependency_deferred_queue := rest,
                    enhanced_simple_lessons_output :=
                      st.enhanced_simple_lessons_output.set ls item2 }
        | some full_prompt_text =>
          if cooldown_active cfg st.last_rate_limit_event_time st.clock then
            { st with data_dependency_deferred_queue := rest ++ [data_task],
                      clock := st.clock + 100 }
          else
            let ctx : LessonsQueueContext :=
              { type := "lesson_simple", lesson_simple_idx := ls }
            let r := _execute_api_call_for_prompt cfg (oracle st.api_calls)
              item_being_processed data_task.prompt_item full_prompt_text 0
              st.api_retry_queue ctx
            let st1 := { st with
              data_dependency_deferred_queue := rest,
              enhanced_simple_lessons_output :=
                st.enhanced_simple_lessons_output.set ls r.1,
              api_retry_queue := r.2.1,
              api_calls := st.api_calls + 1 }
            let st2 := if r.2.2 then
                { st1 with last_rate_limit_event_time := some st1.clock }
              else st1
            { st2 with clock := st2.clock + 50 }
      else
        if dd_attempts + 1 < cfg.max_data_dependency_retries then
          let goc := get_or_create_output_item item_being_processed prompt_name
          let item2 := updateOutputAt goc.1 goc.2.1 (fun g =>
            { g with status := some "DATA_DEPENDENCY_PENDING",
                     output := some ("Waiting for dependent data (attempt " ++
                       toString (dd_attempts + 1) ++ ").") })
          { st with
            data_dependency_deferred_queue :=
              rest ++ [{ data_task with attempt_count := dd_attempts + 1 }],
            enhanced_simple_lessons_output :=
              st.enhanced_simple_lessons_output.set ls item2,
            clock := st.clock + 50 }
        else
          let err_msg := "Max data dependency retries (" ++
            toString cfg.max_data_dependency_retries ++ ") for \x27" ++
            prompt_name ++ "\x27 on item \x27" ++ item_id_log ++ "\x27."
          let goc := get_or_create_output_item item_being_processed prompt_name
          let item2 := updateOutputAt goc.1 goc.2.1 (fun g =>
            { g with status := some "DATA_DEPENDENCY_FAILED",
                     output := some err_msg })
          { st with
            data_dependency_deferred_queue := rest,
            enhanced_simple_lessons_output :=
              st.enhanced_simple_lessons_output.set ls item2,
            clock := st.clock + 50 }
    else
      { st with data_dependency_deferred_queue := data_task :: rest,
                clock := st.clock + 50 }

/-- One iteration of the `/enhance/lessons` loop body after the
cycle-counter bookkeeping (src/main.py lines 410-516). -/
def lessonsStepBody (cfg : Settings) (oracle : Nat → ModelOutcome)
    (active_prompts : List PromptItem) (st : LessonsState) : LessonsState :=
  match st.api_retry_queue with
  | [] => lessonsDataPhase cfg oracle active_prompts st
  | api_task :: rest_api =>
    if cooldown_active cfg st.last_rate_limit_event_time st.clock then
      lessonsDataPhase cfg oracle active_prompts st
    else
      if api_task.queue_context.type = "lesson_simple" then
        let ls := api_task.queue_context.lesson_simple_idx
        let item_to_process := getLesson st.enhanced_simple_lessons_output ls
        let r := _execute_api_call_for_prompt cfg (oracle st.api_calls)
          item_to_process api_task.prompt_item api_task.full_prompt_text
          api_task.api_attempt_count rest_api api_task.queue_context
        let st1 := { st with
          enhanced_simple_lessons_output :=
            st.enhanced_simple_lessons_output.set ls r.1,
          api_retry_queue := r.2.1,
          api_calls := st.api_calls + 1 }
        let st2 := if r.2.2 then
            { st1 with last_rate_limit_event_time := some st1.clock }
          else st1
        { st2 with clock := st2.clock + 100 }
      else
        { st with api_retry_queue := api_task :: rest_api,
                  clock := st.clock + 100 }

/-- The `/enhance/lessons` main loop (src/main.py lines 404-516), same fuel
convention as `unitsLoop`. -/
def lessonsLoop (cfg : Settings) (oracle : Nat → ModelOutcome)
    (active_prompts : List PromptItem) (max_cycles : Nat) :
    Nat → LessonsState → LessonsState
  | 0, st => st
  | fuel + 1, st =>
    if st.data_dependency_deferred_queue = [] ∧ st.api_retry_queue = [] then st
    else
      let st1 := { st with processing_cycles := st.processing_cycles + 1 }
      if max_cycles < st1.processing_cycles then st1
      else lessonsLoop cfg oracle active_prompts max_cycles fuel
        (lessonsStepBody cfg oracle active_prompts st1)

/-- The post-loop drain of `/enhance/lessons` (src/main.py lines 518-528). -/
def lessonsDrain (st : LessonsState) : LessonsState :=
  if st.data_dependency_deferred_queue = [] ∧ st.api_retry_queue = [] then st
  else
    st.data_dependency_deferred_queue.foldl
      (fun acc task =>
        if task.type = "lesson_simple" then
          let ls := task.lesson_simple_idx
          let item_left := getLesson acc.enhanced_simple_lessons_output ls
          let goc := get_or_create_output_item item_left task.prompt_item.prompt_name
          let entry := (generated_outputs goc.1).getD goc.2.1
            { prompt_name := task.prompt_item.prompt_name }
          let item2 :=
            if entry.status = some "DATA_DEPENDENCY_PENDING" ∨
                entry.status = none ∨ entry.status = some "" then
              updateOutputAt goc.1 goc.2.1 (fun g =>
                { g with status := some "DATA_DEPENDENCY_TIMEOUT",
                         output := some "Processing cycle limit reached while waiting for data." })
            else goc.1
          { acc with enhanced_simple_lessons_output :=
              acc.enhanced_simple_lessons_output.set ls item2 }
        else acc)
      st

/-- The initial seeding of the `/enhance/lessons` dependency queue
(src/main.py lines 384-394). -/
def lessonsInitQueue (active_prompts : List PromptItem)
    (lessons : List LessonSimple) : List LessonsDataTask :=
  (lessons.enum.flatMap fun le =>
    active_prompts.map fun p =>
      { type := "lesson_simple", lesson_simple_idx := le.1,
        prompt_item := p, attempt_count := 0 })

/-- Embeds the `/enhance/lessons` endpoint handler
`enhance_simple_lessons_endpoint` (src/main.py lines 363-531). -/
def enhance_simple_lessons_endpoint (cfg : Settings)
    (oracle : Nat → ModelOutcome) (request : EnhanceLessonsRequest) :
    EnhanceLessonsResponse :=
  if request.lessons = [] then { lessons := [] }
  else
    let active_prompts := request.prompts.getD []
    if active_prompts = [] then
      { lessons := request.lessons }
    else
      let enhanced_simple_lessons_output := request.lessons
      let initTasks := lessonsInitQueue active_prompts enhanced_simple_lessons_output
      let total_lesson_prompts := initTasks.length
      if total_lesson_prompts = 0 then
        { lessons := enhanced_simple_lessons_output }
      else
        let max_cycles := total_lesson_prompts *
          (cfg.max_api_retries + cfg.max_data_dependency_retries + 5)
        let st0 : LessonsState :=
          { enhanced_simple_lessons_output := enhanced_simple_lessons_output,
            api_retry_queue := [],
            data_dependency_deferred_queue := initTasks,
            last_rate_limit_event_time := none,
            processing_cycles := 0, clock := 0, api_calls := 0 }
        let stF := lessonsLoop cfg oracle active_prompts max_cycles
          (max_cycles + 1) st0
        let stD := lessonsDrain stF
        { lessons := stD.enhanced_simple_lessons_output }

/-- Embeds `AnalyzeRequestItem` from src/models.py. -/
structure AnalyzeRequestItem where
  file_id : String
  prompt_text : String
  genai_file_name : Option String := none
deriving Repr, DecidableEq

/-- Embeds `AnalyzeResponseItemError` from src/models.py. -/
structure AnalyzeResponseItemError where
  storage_file_id : String
  error : String
  detail : Option String := none
deriving Repr, DecidableEq

/-- Embeds `BatchAnalyzeItemResult` from src/models.py; the success payload
(`AnalyzeResponseItemSuccess`) is opaque to the batch-isolation claim and is
abstracted to its storage file id. -/
structure BatchAnalyzeItemResult where
  success : Bool
  result : Option String := none
  error_info : Option AnalyzeResponseItemError := none
deriving Repr, DecidableEq

/-- Result of a Python call: a value, or an exception escaping it. -/
inductive PyResult (β : Type) where
  | ok (value : β)
  | raised (exc : String)
deriving Repr, DecidableEq

/-- Number of parameters of
`process_single_analyze_request(file_id, prompt_text, storage_service,
gemini_analysis_service, genai_file_name=None)`
(src/helpers/analyze_helpers.py line 23) that have no default. -/
def process_single_analyze_request_required_params : Nat := 4

/-- Number of positional arguments supplied at the call site
`process_single_analyze_request(req.file_id, drive_service,
gemini_analysis_service)` in `analyze_documents_endpoint`
(src/main.py line 162). -/
def analyze_endpoint_call_args : Nat := 3

/-- Embeds `analyze_documents_endpoint` (src/main.py lines 151-166).  For a
non-empty request list the handler builds one coroutine per target inside a
list comprehension; Python evaluates the call immediately, and calling a
function that requires 4 positional parameters with only 3 arguments raises
`TypeError` there, before `asyncio.gather` runs — embedded as the `.raised`
branch guarded by the (decidably true) arity comparison.  The unreachable
well-typed path gathers one per-target result from the supplied oracle. -/
def analyze_documents_endpoint
    (per_target : AnalyzeRequestItem → BatchAnalyzeItemResult)
    (requests : List AnalyzeRequestItem) :
    PyResult (List BatchAnalyzeItemResult) :=
  if requests = [] then .ok []
  else if analyze_endpoint_call_args <
      process_single_analyze_request_required_params then
    .raised "TypeError: process_single_analyze_request() missing 1 required positional argument: \x27gemini_analysis_service\x27"
  else
    .ok (requests.map per_target)

/-- Modelled from the spec: the generation-call status taxonomy of spec
section 4.2 (`SUCCESS`, `RATE_LIMIT`, `ERROR_API`, `ERROR_EMPTY`,
`ERROR_BLOCKED`, `ERROR_INVALID_JSON`, `ERROR_API_CANT_GENERATE_JSON`). -/
def section42Taxonomy : List String :=
  ["SUCCESS", "RATE_LIMIT", "ERROR_API", "ERROR_EMPTY", "ERROR_BLOCKED",
   "ERROR_INVALID_JSON", "ERROR_API_CANT_GENERATE_JSON"]

/-- Modelled from the spec: the full status taxonomy (section 4.2 plus the
scheduler-level statuses of section 7). -/
def statusTaxonomy : List String :=
  section42Taxonomy ++
  ["DATA_DEPENDENCY_PENDING", "DATA_DEPENDENCY_FAILED",
   "DATA_DEPENDENCY_TIMEOUT", "PENDING_API_RETRY",
   "ERROR_INTERNAL_CONSTRUCTION"]

/-! ### Helper lemmas about the output-list primitives -/

theorem countOutputs_eq_zero_of_index_none (l : List GeneratedContentItem)
    (n : String) (h : find_output_index l n = none) : countOutputs l n = 0 := by
  induction l with
  | nil => rfl
  | cons g rest ih =>
    simp only [find_output_index] at h
    simp only [countOutputs]
    by_cases hg : g.prompt_name = n
    · rw [if_pos hg] at h; exact absurd h (by simp)
    · rw [if_neg hg] at h
      rw [if_neg hg, ih (by cases hfi : find_output_index rest n <;> simp [hfi] at h ⊢)]

theorem findOutput_eq_none_of_index_none (l : List GeneratedContentItem)
    (n : String) (h : find_output_index l n = none) : findOutput l n = none := by
  induction l with
  | nil => rfl
  | cons g rest ih =>
    simp only [find_output_index] at h
    simp only [findOutput]
    by_cases hg : g.prompt_name = n
    · rw [if_pos hg] at h; exact absurd h (by simp)
    · rw [if_neg hg] at h
      exact if_neg hg ▸ ih (by cases hfi : find_output_index rest n <;> simp [hfi] at h ⊢)

theorem countOutputs_pos_of_index_some (l : List GeneratedContentItem)
    (n : String) (i : Nat) (h : find_output_index l n = some i) :
    1 ≤ countOutputs l n := by
  induction l generalizing i with
  | nil => simp [find_output_index] at h
  | cons g rest ih =>
    simp only [find_output_index] at h
    simp only [countOutputs]
    by_cases hg : g.prompt_name = n
    · rw [if_pos hg]; omega
    · rw [if_neg hg] at h
      rw [if_neg hg]
      cases hfi : find_output_index rest n with
      | none => rw [hfi] at h; simp at h
      | some j => simpa using ih j hfi

theorem findOutput_update_of_index_some (l : List GeneratedContentItem)
    (n : String) (i : Nat) (f : GeneratedContentItem → GeneratedContentItem)
    (hf : ∀ g, (f g).prompt_name = g.prompt_name)
    (h : find_output_index l n = some i) :
    findOutput (list_update_at l i f) n = (findOutput l n).map f := by
  induction l generalizing i with
  | nil => simp [find_output_index] at h
  | cons g rest ih =>
    simp only [find_output_index] at h
    by_cases hg : g.prompt_name = n
    · rw [if_pos hg] at h
      have hi : i = 0 := by simpa using h.symm
      subst hi
      simp only [list_update_at, findOutput, hf g, if_pos hg, Option.map]
    · rw [if_neg hg] at h
      cases hfi : find_output_index rest n with
      | none => rw [hfi] at h; simp at h
      | some j =>
        rw [hfi] at h
        have hi : i = j + 1 := by simpa using h.symm
        subst hi
        simp only [list_update_at, findOutput, if_neg hg]
        exact ih j hfi

theorem findOutput_index_isSome (l : List GeneratedContentItem) (n : String)
    (i : Nat) (h : find_output_index l n = some i) :
    ∃ g, findOutput l n = some g := by
  induction l generalizing i with
  | nil => simp [find_output_index] at h
  | cons g rest ih =>
    simp only [find_output_index] at h
    simp only [findOutput]
    by_cases hg : g.prompt_name = n
    · exact ⟨g, if_pos hg⟩
    · rw [if_neg hg] at h
      rw [if_neg hg]
      cases hfi : find_output_index rest n with
      | none => rw [hfi] at h; simp at h
      | some j => exact ih j hfi

theorem list_update_at_append_length (l : List GeneratedContentItem)
    (e : GeneratedContentItem) (f : GeneratedContentItem → GeneratedContentItem) :
    list_update_at (l ++ [e]) l.length f = l ++ [f e] := by
  induction l with
  | nil => rfl
  | cons g rest ih =>
    rw [List.cons_append, List.cons_append]
    show g :: list_update_at (rest ++ [e]) rest.length f = g :: (rest ++ [f e])
    rw [ih]

theorem findOutput_append_of_none (l : List GeneratedContentItem) (n : String)
    (e : GeneratedContentItem) (h : findOutput l n = none) :
    findOutput (l ++ [e]) n = if e.prompt_name = n then some e else none := by
  induction l with
  | nil => rfl
  | cons g rest ih =>
    simp only [findOutput] at h
    by_cases hg : g.prompt_name = n
    · rw [if_pos hg] at h; exact absurd h (by simp)
    · rw [if_neg hg] at h
      rw [List.cons_append]
      show (if g.prompt_name = n then some g else findOutput (rest ++ [e]) n) = _
      rw [if_neg hg]
      exact ih h

theorem find_output_index_append_self (l : List GeneratedContentItem)
    (n : String) (e : GeneratedContentItem) (he : e.prompt_name = n)
    (h : find_output_index l n = none) :
    find_output_index (l ++ [e]) n = some l.length := by
  induction l with
  | nil => simp [find_output_index, he]
  | cons g rest ih =>
    simp only [find_output_index] at h
    by_cases hg : g.prompt_name = n
    · rw [if_pos hg] at h; exact absurd h (by simp)
    · rw [if_neg hg] at h
      have hrest : find_output_index rest n = none := by
        cases hfi : find_output_index rest n <;> simp [hfi] at h ⊢
      rw [List.cons_append]
      show (if g.prompt_name = n then some 0
        else (find_output_index (rest ++ [e]) n).map (· + 1)) = _
      rw [if_neg hg, ih hrest]
      rfl

theorem countOutputs_append (l : List GeneratedContentItem) (n : String)
    (e : GeneratedContentItem) :
    countOutputs (l ++ [e]) n =
      countOutputs l n + (if e.prompt_name = n then 1 else 0) := by
  induction l with
  | nil => simp [countOutputs]
  | cons g rest ih =>
    rw [List.cons_append]
    show (if g.prompt_name = n then 1 else 0) + countOutputs (rest ++ [e]) n = _
    rw [ih]
    show _ = (if g.prompt_name = n then 1 else 0) + countOutputs rest n +
      (if e.prompt_name = n then 1 else 0)
    omega

theorem list_update_at_same (l : List GeneratedContentItem) (i : Nat)
    (f g : GeneratedContentItem → GeneratedContentItem) :
    list_update_at (list_update_at l i f) i g =
      list_update_at l i (fun x => g (f x)) := by
  induction l generalizing i with
  | nil => rfl
  | cons e rest ih =>
    cases i with
    | zero => rfl
    | succ j => simp only [list_update_at, ih]

/-- Reading the generated outputs after an in-place entry update. -/
theorem outputs_updateOutputAt {α : Type} [ProcessableContentItem α] (x : α)
    (i : Nat) (f : GeneratedContentItem → GeneratedContentItem) :
    generated_outputs (updateOutputAt x i f) =
      list_update_at (generated_outputs x) i f := by
  unfold updateOutputAt; exact outputs_set _ _

/-- The get-or-create / update round trip: after fetching-or-creating the
entry for `n` and mutating it in place with a `prompt_name`-preserving `f`,
the first entry for `n` is `f` of the old entry (or of a freshly created
one). -/
theorem goc_update_findOutput {α : Type} [ProcessableContentItem α] (item : α)
    (n : String) (f : GeneratedContentItem → GeneratedContentItem)
    (hf : ∀ g, (f g).prompt_name = g.prompt_name) :
    findOutput (generated_outputs (updateOutputAt
        (get_or_create_output_item item n).1
        (get_or_create_output_item item n).2.1 f)) n =
      some (f ((findOutput (generated_outputs item) n).getD
        { prompt_name := n })) := by
  unfold get_or_create_output_item
  cases hfi : find_output_index (generated_outputs item) n with
  | some i =>
    simp only [hfi]
    rw [outputs_updateOutputAt,
      findOutput_update_of_index_some _ _ _ _ hf hfi]
    obtain ⟨g, hg⟩ := findOutput_index_isSome _ _ _ hfi
    simp [hg]
  | none =>
    simp only [hfi]
    rw [outputs_updateOutputAt, outputs_set, list_update_at_append_length]
    have hnone := findOutput_eq_none_of_index_none _ _ hfi
    rw [findOutput_append_of_none _ _ _ hnone,
      if_pos (by rw [hf]), hnone]
    rfl

/-! ### Lemmas about the generation invoker under a `RATE_LIMIT` status -/

theorem execute_rate_limit_queue {α χ : Type} [ProcessableContentItem α]
    (cfg : Settings) (outcome : ModelOutcome) (item : α) (p : PromptItem)
    (text : String) (attempt : Nat) (q : List (RetryTask χ)) (ctx : χ)
    (hst : (generate_text outcome text).1 = "RATE_LIMIT") :
    (_execute_api_call_for_prompt cfg outcome item p text attempt q ctx).2 =
      (if attempt + 1 < cfg.max_api_retries then
        (q ++ [{ queue_context := ctx, prompt_item := p,
                 full_prompt_text := text, api_attempt_count := attempt + 1 }],
         true)
       else (q, true)) := by
  unfold _execute_api_call_for_prompt
  simp only [hst]
  rw [if_neg (show ¬ ("RATE_LIMIT" = "SUCCESS") by decide),
    if_pos (show True ∨ ("RATE_LIMIT" = "ERROR_API") from Or.inl trivial)]
  split <;> rfl

theorem execute_rate_limit_final_status {α χ : Type} [ProcessableContentItem α]
    (cfg : Settings) (outcome : ModelOutcome) (item : α) (p : PromptItem)
    (text : String) (attempt : Nat) (q : List (RetryTask χ)) (ctx : χ)
    (hst : (generate_text outcome text).1 = "RATE_LIMIT")
    (hmax : ¬ (attempt + 1 < cfg.max_api_retries)) :
    (findOutput (generated_outputs
        (_execute_api_call_for_prompt cfg outcome item p text attempt q ctx).1)
      p.prompt_name).map (fun g => g.status) = some (some "RATE_LIMIT") := by
  unfold _execute_api_call_for_prompt
  simp only [hst]
  rw [if_neg (show ¬ ("RATE_LIMIT" = "SUCCESS") by decide),
    if_pos (show True ∨ ("RATE_LIMIT" = "ERROR_API") from Or.inl trivial),
    if_neg hmax]
  dsimp only
  rw [goc_update_findOutput item p.prompt_name
    (fun g => { g with status := some "RATE_LIMIT",
                       output := (generate_text outcome text).2 })
    (fun g => rfl)]
  rfl

/-! ### The resolver stops at any unmet dependency -/

theorem construct_parts_missing {α : Type} [ProcessableContentItem α]
    (item : α) (known : List String) :
    ∀ (deps parts : List String),
    (∃ k ∈ deps, dependency_unmet item known k = true) →
    construct_prompt_parts item known parts deps =
      (PromptConstructionStatus.MISSING_DEPENDENCY, none) := by
  intro deps
  induction deps with
  | nil => intro parts h; obtain ⟨k, hk, _⟩ := h; cases hk
  | cons k rest ih =>
    intro parts h
    by_cases hc : k = "content"
    · have hrest : ∃ x ∈ rest, dependency_unmet item known x = true := by
        obtain ⟨x, hx, hu⟩ := h
        rcases List.mem_cons.mp hx with hxk | hxr
        · subst hxk
          simp only [dependency_unmet, if_pos hc] at hu
          exact absurd hu (by decide)
        · exact ⟨x, hxr, hu⟩
      simp only [construct_prompt_parts, if_pos hc]
      exact ih _ hrest
    · by_cases hkn : k ∈ known
      · cases hfo : findOutput (generated_outputs item) k with
        | none =>
          simp only [construct_prompt_parts, if_neg hc, if_pos hkn, hfo]
        | some g =>
          by_cases hg : g.status = some "SUCCESS" ∧ g.output ≠ none
          · have hrest : ∃ x ∈ rest, dependency_unmet item known x = true := by
              obtain ⟨x, hx, hu⟩ := h
              rcases List.mem_cons.mp hx with hxk | hxr
              · subst hxk
                simp only [dependency_unmet, if_neg hc, if_pos hkn, hfo,
                  if_pos hg] at hu
                exact absurd hu (by decide)
              · exact ⟨x, hxr, hu⟩
            simp only [construct_prompt_parts, if_neg hc, if_pos hkn, hfo,
              if_pos hg]
            exact ih _ hrest
          · simp only [construct_prompt_parts, if_neg hc, if_pos hkn, hfo,
              if_neg hg]
      · have hrest : ∃ x ∈ rest, dependency_unmet item known x = true := by
          obtain ⟨x, hx, hu⟩ := h
          rcases List.mem_cons.mp hx with hxk | hxr
          · subst hxk
            simp only [dependency_unmet, if_neg hc, if_neg hkn] at hu
            exact absurd hu (by decide)
          · exact ⟨x, hxr, hu⟩
        cases hle : lookupExtra (model_extra item) k with
        | some v =>
          simp only [construct_prompt_parts, if_neg hc, if_neg hkn, hle]
          exact ih _ hrest
        | none =>
          simp only [construct_prompt_parts, if_neg hc, if_neg hkn, hle]
          exact ih _ hrest

/-! ### Termination of the `/enhance/units` scheduler loop -/

theorem unitsIdlePhase_cycles (cfg : Settings) (st : UnitsState) :
    (unitsIdlePhase cfg st).processing_cycles = st.processing_cycles := by
  unfold unitsIdlePhase
  dsimp only
  repeat' split
  all_goals rfl

theorem unitsDataPhase_cycles (cfg : Settings) (oracle : Nat → ModelOutcome)
    (active_prompts : List PromptItem) (st : UnitsState) :
    (unitsDataPhase cfg oracle active_prompts st).processing_cycles =
      st.processing_cycles := by
  unfold unitsDataPhase
  split
  · exact unitsIdlePhase_cycles cfg st
  · dsimp only
    repeat' split
    all_goals rfl

theorem unitsStepBody_cycles (cfg : Settings) (oracle : Nat → ModelOutcome)
    (active_prompts : List PromptItem) (st : UnitsState) :
    (unitsStepBody cfg oracle active_prompts st).processing_cycles =
      st.processing_cycles := by
  unfold unitsStepBody
  split
  · exact unitsDataPhase_cycles cfg oracle active_prompts st
  · split
    · exact unitsDataPhase_cycles cfg oracle active_prompts st
    · dsimp only
      repeat' split
      all_goals rfl

/-- The loop's exit condition: both queues drained, or the cycle budget
exceeded. -/
def unitsLoopExited (max_cycles : Nat) (st : UnitsState) : Prop :=
  (st.data_dependency_deferred_queue = [] ∧ st.api_retry_queue = []) ∨
    max_cycles < st.processing_cycles

theorem unitsLoop_exits (cfg : Settings) (oracle : Nat → ModelOutcome)
    (active_prompts : List PromptItem) (max_cycles : Nat) :
    ∀ (fuel : Nat) (st : UnitsState),
    max_cycles < st.processing_cycles + fuel →
    unitsLoopExited max_cycles
      (unitsLoop cfg oracle active_prompts max_cycles fuel st) := by
  intro fuel
  induction fuel with
  | zero =>
    intro st h
    exact Or.inr (by simpa using h)
  | succ n ih =>
    intro st h
    rw [unitsLoop]
    split
    · exact Or.inl (by assumption)
    · dsimp only
      split
      · exact Or.inr (by assumption)
      · exact ih _ (by
          rw [unitsStepBody_cycles]
          dsimp only
          omega)

theorem unitsLoop_cycles_le (cfg : Settings) (oracle : Nat → ModelOutcome)
    (active_prompts : List PromptItem) (max_cycles : Nat) :
    ∀ (fuel : Nat) (st : UnitsState),
    (unitsLoop cfg oracle active_prompts max_cycles fuel st).processing_cycles ≤
      st.processing_cycles + fuel := by
  intro fuel
  induction fuel with
  | zero => intro st; simp [unitsLoop]
  | succ n ih =>
    intro st
    rw [unitsLoop]
    split
    · omega
    · dsimp only
      split
      · dsimp only; omega
      · have := ih (unitsStepBody cfg oracle active_prompts
          { st with processing_cycles := st.processing_cycles + 1 })
        rw [unitsStepBody_cycles] at this
        dsimp only at this ⊢
        omega

/-- Adding fuel beyond the point where the budget check must fire does not
change the run: the loop has genuinely terminated by itself. -/
theorem unitsLoop_stable (cfg : Settings) (oracle : Nat → ModelOutcome)
    (active_prompts : List PromptItem) (max_cycles : Nat) :
    ∀ (fuel : Nat), 1 ≤ fuel → ∀ (st : UnitsState) (k : Nat),
    max_cycles + 1 ≤ st.processing_cycles + fuel →
    unitsLoop cfg oracle active_prompts max_cycles (fuel + k) st =
      unitsLoop cfg oracle active_prompts max_cycles fuel st := by
  intro fuel
  induction fuel with
  | zero => intro h; omega
  | succ n ih =>
    intro _ st k h
    have hk : n + 1 + k = (n + k) + 1 := by omega
    rw [hk, unitsLoop, unitsLoop]
    split
    · rfl
    · dsimp only
      split
      · rfl
      · rename_i hq hcyc
        have hcyc' : ¬ (max_cycles < st.processing_cycles + 1) := by
          simpa using hcyc
        have h1n : 1 ≤ n := by omega
        have hbound : max_cycles + 1 ≤
            (unitsStepBody cfg oracle active_prompts
              { st with processing_cycles := st.processing_cycles + 1 }).processing_cycles + n := by
          rw [unitsStepBody_cycles]
          show max_cycles + 1 ≤ st.processing_cycles + 1 + n
          omega
        exact ih h1n _ k hbound

/-- The `max_cycles` budget the `/enhance/units` handler computes
(src/main.py lines 230-232) for a given request. -/
def unitsMaxCycles (cfg : Settings) (request : EnhanceUnitsRequest) : Nat :=
  (unitsInitQueue (request.prompts.getD []) request.lessons).length *
    (cfg.max_api_retries + cfg.max_data_dependency_retries + 5)

/-- The scheduler state the `/enhance/units` handler starts its main loop
from (src/main.py lines 200-232). -/
def unitsInitState (request : EnhanceUnitsRequest) : UnitsState :=
  { enhanced_units_output := request.lessons,
    api_retry_queue := [],
    data_dependency_deferred_queue :=
      unitsInitQueue (request.prompts.getD []) request.lessons,
    last_rate_limit_event_time := none,
    processing_cycles := 0, clock := 0, api_calls := 0 }

/-! ### Counting invocations of a task that is rate-limited on every call -/

theorem run_api_task_aux_succ {α χ : Type} [ProcessableContentItem α]
    (cfg : Settings) (outcomes : Nat → ModelOutcome) (p : PromptItem)
    (text : String) (ctx : χ) (fuel : Nat) (x : α) (attempt calls : Nat) :
    run_api_task_aux cfg outcomes p text ctx (fuel + 1) x attempt calls =
      match (_execute_api_call_for_prompt cfg (outcomes calls) x p text attempt
          ([] : List (RetryTask χ)) ctx).2.1 with
      | [] => ((_execute_api_call_for_prompt cfg (outcomes calls) x p text
          attempt ([] : List (RetryTask χ)) ctx).1, calls + 1)
      | t :: _ => run_api_task_aux cfg outcomes p text ctx fuel
          (_execute_api_call_for_prompt cfg (outcomes calls) x p text attempt
            ([] : List (RetryTask χ)) ctx).1 t.api_attempt_count (calls + 1) :=
  rfl

theorem run_api_task_aux_always_rate_limited {α χ : Type}
    [ProcessableContentItem α] (cfg : Settings) (outcomes : Nat → ModelOutcome)
    (p : PromptItem) (text : String) (ctx : χ)
    (ht : ∀ k, (generate_text (outcomes k) text).1 = "RATE_LIMIT") :
    ∀ (fuel : Nat) (x : α) (attempt calls : Nat),
    cfg.max_api_retries ≤ attempt + fuel + 1 →
    (run_api_task_aux cfg outcomes p text ctx (fuel + 1) x attempt calls).2 =
      calls + max (cfg.max_api_retries - attempt) 1 ∧
    ((findOutput (generated_outputs
        (run_api_task_aux cfg outcomes p text ctx (fuel + 1) x attempt calls).1)
      p.prompt_name).map (fun g => g.status)) = some (some "RATE_LIMIT") := by
  intro fuel
  induction fuel with
  | zero =>
    intro x attempt calls hle
    have hmax : ¬ (attempt + 1 < cfg.max_api_retries) := by omega
    have e := execute_rate_limit_queue cfg (outcomes calls) x p text attempt
      ([] : List (RetryTask χ)) ctx (ht calls)
    rw [if_neg hmax] at e
    have e1 : (_execute_api_call_for_prompt cfg (outcomes calls) x p text
        attempt ([] : List (RetryTask χ)) ctx).2.1 = [] := by rw [e]
    rw [run_api_task_aux_succ, e1]
    dsimp only
    constructor
    · omega
    · exact execute_rate_limit_final_status cfg (outcomes calls) x p text
        attempt [] ctx (ht calls) hmax
  | succ n ih =>
    intro x attempt calls hle
    by_cases hlt : attempt + 1 < cfg.max_api_retries
    · have e := execute_rate_limit_queue cfg (outcomes calls) x p text attempt
        ([] : List (RetryTask χ)) ctx (ht calls)
      rw [if_pos hlt] at e
      have e1 : (_execute_api_call_for_prompt cfg (outcomes calls) x p text
          attempt ([] : List (RetryTask χ)) ctx).2.1 =
          [{ queue_context := ctx, prompt_item := p, full_prompt_text := text,
             api_attempt_count := attempt + 1 }] := by rw [e]; rfl
      rw [run_api_task_aux_succ, e1]
      dsimp only
      obtain ⟨ih1, ih2⟩ := ih
        (_execute_api_call_for_prompt cfg (outcomes calls) x p text attempt
          ([] : List (RetryTask χ)) ctx).1 (attempt + 1) (calls + 1) (by omega)
      constructor
      · rw [ih1]; omega
      · exact ih2
    · have e := execute_rate_limit_queue cfg (outcomes calls) x p text attempt
        ([] : List (RetryTask χ)) ctx (ht calls)
      rw [if_neg hlt] at e
      have e1 : (_execute_api_call_for_prompt cfg (outcomes calls) x p text
          attempt ([] : List (RetryTask χ)) ctx).2.1 = [] := by rw [e]
      rw [run_api_task_aux_succ, e1]
      dsimp only
      constructor
      · omega
      · exact execute_rate_limit_final_status cfg (outcomes calls) x p text
          attempt [] ctx (ht calls) hlt

/-! ### Concrete fixtures used by the claim theorems -/

/-- A settings fixture with `max_api_retries = 2` (the value the spec's
retry-exhaustion property is stated for). -/
def cfgA : Settings :=
  { max_api_retries := 2, max_data_dependency_retries := 2,
    retry_cooldown_seconds := 1 }

/-- A prompt with no dependencies. -/
def promptP1 : PromptItem := { prompt_name := "p1", prompt_template := "t" }

/-- A slide with content and no prior outputs. -/
def slideC : Slide := { content := "c" }

/-- A `unit_slide` queue context pointing at the first slide. -/
def ctxU0 : UnitsQueueContext :=
  { type := "unit_slide", lesson_idx := 0, section_idx := 0, slide_idx := 0 }

/-- A model oracle that always answers with the text `"Hello"`. -/
def helloOracle : Nat → ModelOutcome := fun _ => .response "Hello"

/-- A model oracle whose text output is literally `"RATE_LIMIT"` — with the
tuple-protocol mismatch of `generate_text` this is the only way the actual
code ever produces the `RATE_LIMIT` status the retry logic matches on. -/
def rateLimitTextOracle : Nat → ModelOutcome := fun _ => .response "RATE_LIMIT"

/-- A one-lesson / one-section / one-slide / one-prompt enhance request. -/
def reqC4 : EnhanceUnitsRequest :=
  { prompts := some [promptP1],
    lessons := [{ sections := [{ slides := [slideC] }] }] }

/-- A prompt whose name is the literal content marker `"content"`. -/
def promptContentNamed : PromptItem :=
  { prompt_name := "content", prompt_template := "ta" }

/-- A prompt that references the prompt named `"content"`. -/
def promptB : PromptItem :=
  { prompt_name := "b", prompt_template := "tb",
    lesson_properties_to_append := ["content"] }

/-- A plain prompt named `"a"`. -/
def promptA : PromptItem := { prompt_name := "a", prompt_template := "t" }

/-- A prompt that references prompt `"a"`. -/
def promptB2 : PromptItem :=
  { prompt_name := "b2", prompt_template := "t",
    lesson_properties_to_append := ["a"] }

/-- A slide whose request-supplied output list already holds two entries for
the same prompt name. -/
def slideDup : Slide :=
  { content := "c",
    generated_outputs := [{ prompt_name := "p" }, { prompt_name := "p" }] }

/-- A single analyze target. -/
def reqA1 : AnalyzeRequestItem := { file_id := "f1", prompt_text := "p" }

/-- A per-target oracle that would succeed for every target. -/
def perTargetOk : AnalyzeRequestItem → BatchAnalyzeItemResult :=
  fun r => { success := true, result := some r.file_id }

/-- A non-empty `/enhance/units` request with no prompts. -/
def reqNoPromptsUnits : EnhanceUnitsRequest :=
  { prompts := none,
    lessons := [{ sections := [{ slides := [slideC] }] }] }

/-- A non-empty `/enhance/lessons` request with an empty prompt list and a
pre-existing generated output that must be returned untouched. -/
def reqNoPromptsLessons : EnhanceLessonsRequest :=
  { prompts := some [],
    lessons := [{ content := "x",
                  generated_outputs := [{ prompt_name := "old",
                                          output := some "o",
                                          status := some "SUCCESS" }] }] }

/-! ### The claim theorems -/

/-- C1.  The claim says a non-empty model text response is classified as
status `SUCCESS` with the text as payload.  The code disagrees:
`generate_text` returns `(response.text, None)` — the raw model text in the
status position and `None` in the payload position — so
`_execute_api_call_for_prompt` records the model text `"Hello"` as the
GeneratedOutput's status and `none` as its output, and its
`status == "SUCCESS"` check cannot fire.  This theorem evaluates the code at
that failing input. -/
theorem c1_success_returns_raw_text_not_status :
    generate_text (ModelOutcome.response "Hello") "prompt" = ("Hello", none) ∧
    (generate_text (ModelOutcome.response "Hello") "prompt").1 ≠ "SUCCESS" ∧
    (findOutput (generated_outputs
        (_execute_api_call_for_prompt cfgA (ModelOutcome.response "Hello")
          slideC promptP1 "prompt" 0 ([] : List (RetryTask UnitsQueueContext))
          ctxU0).1) "p1") =
      some { prompt_name := "p1", output := none, status := some "Hello" } := by
  decide

/-- C2.  The claim says every exception maps to `ERROR_API` except
rate-limit/quota signals which map to `RATE_LIMIT`, both retryable.  The
code maps `ResourceExhausted` to `"ERROR_RESOURCE_EXHAUSTED"` and
`GoogleAPIError` to `"ERROR_GOOGLE_API"`; neither equals the claimed status
and neither is matched by the scheduler's `RATE_LIMIT`/`ERROR_API` retry
test, so both fall into the permanent-error branch (queue unchanged, return
value `False`). -/
theorem c2_exception_mapping_diverges :
    generate_text (ModelOutcome.raiseResourceExhausted "quota") "prompt" =
      ("ERROR_RESOURCE_EXHAUSTED", some "Resource exhausted: quota") ∧
    (generate_text (ModelOutcome.raiseResourceExhausted "quota") "prompt").1 ≠
      "RATE_LIMIT" ∧
    generate_text (ModelOutcome.raiseGoogleAPIError "boom") "prompt" =
      ("ERROR_GOOGLE_API", some "Google API error: boom") ∧
    (generate_text (ModelOutcome.raiseGoogleAPIError "boom") "prompt").1 ≠
      "ERROR_API" ∧
    (_execute_api_call_for_prompt cfgA
        (ModelOutcome.raiseResourceExhausted "quota") slideC promptP1 "prompt"
        0 ([] : List (RetryTask UnitsQueueContext)) ctxU0).2 = ([], false) ∧
    (_execute_api_call_for_prompt cfgA
        (ModelOutcome.raiseGoogleAPIError "boom") slideC promptP1 "prompt"
        0 ([] : List (RetryTask UnitsQueueContext)) ctxU0).2 = ([], false) := by
  decide

/-- C3 counterexample.  With `max_api_retries = 2`, a task whose every
invocation yields status `RATE_LIMIT` is invoked exactly 2 times in total
(1 retry), not the 3 total invocations (2 retries) the claim asserts. -/
theorem c3_three_invocations_refuted :
    (run_api_task cfgA rateLimitTextOracle promptP1 "hi" ctxU0 slideC).2 = 2 ∧
    (run_api_task cfgA rateLimitTextOracle promptP1 "hi" ctxU0 slideC).2 ≠ 3 := by
  decide

/-- C3 amended.  With `max_api_retries = 2`, a task whose every invocation
returns status `RATE_LIMIT` ends after exactly 1 retry — 2 total
invocations; the task's GeneratedOutput is left with the last transient
status `RATE_LIMIT` (the explanatory max-retries message is only printed,
never stored); and in general the helper re-enqueues the task exactly when
`api_attempt_count + 1 < max_api_retries`. -/
theorem c3_retry_exhaustion_amended {α χ : Type} [ProcessableContentItem α]
    (cfg : Settings) (outcomes : Nat → ModelOutcome) (p : PromptItem)
    (text : String) (ctx : χ) (item : α)
    (h2 : cfg.max_api_retries = 2)
    (ht : ∀ k, (generate_text (outcomes k) text).1 = "RATE_LIMIT") :
    (run_api_task cfg outcomes p text ctx item).2 = 2 ∧
    ((findOutput (generated_outputs
        (run_api_task cfg outcomes p text ctx item).1) p.prompt_name).map
      (fun g => g.status)) = some (some "RATE_LIMIT") ∧
    (∀ (attempt : Nat) (q : List (RetryTask χ)),
      (_execute_api_call_for_prompt cfg (outcomes 0) item p text attempt q
          ctx).2.1 =
        if attempt + 1 < cfg.max_api_retries then
          q ++ [{ queue_context := ctx, prompt_item := p,
                  full_prompt_text := text,
                  api_attempt_count := attempt + 1 }]
        else q) := by
  have key := run_api_task_aux_always_rate_limited cfg outcomes p text ctx ht
    cfg.max_api_retries item 0 0 (by omega)
  refine ⟨?_, ?_, ?_⟩
  · show (run_api_task_aux cfg outcomes p text ctx
      (cfg.max_api_retries + 1) item 0 0).2 = 2
    rw [key.1]
    omega
  · exact key.2
  · intro attempt q
    have e := execute_rate_limit_queue cfg (outcomes 0) item p text attempt q
      ctx (ht 0)
    rw [e]
    split <;> rfl

/-- C3 witness: applying the amended theorem at concrete inputs. -/
theorem c3_retry_exhaustion_amended_witness :
    cfgA.max_api_retries = 2 ∧
    (run_api_task cfgA rateLimitTextOracle promptP1 "hi" ctxU0 slideC).2 = 2 ∧
    ((findOutput (generated_outputs
        (run_api_task cfgA rateLimitTextOracle promptP1 "hi" ctxU0
          slideC).1) "p1").map (fun g => g.status)) =
      some (some "RATE_LIMIT") :=
  ⟨by decide,
   (c3_retry_exhaustion_amended cfgA rateLimitTextOracle promptP1 "hi" ctxU0
     slideC (by decide) (fun _ => rfl)).1,
   (c3_retry_exhaustion_amended cfgA rateLimitTextOracle promptP1 "hi" ctxU0
     slideC (by decide) (fun _ => rfl)).2.1⟩

/-- C4.  The claim says that after a scheduler run every enqueued
(item, prompt) pair holds exactly one GeneratedOutput with a status from
the defined taxonomy.  Because of the `generate_text` protocol mismatch
(C1), a run of the full `/enhance/units` handler on a one-slide/one-prompt
request with model text `"Hello"` terminates with the pair's only
GeneratedOutput carrying status `"Hello"` — a raw model text that is not in
the taxonomy (and the payload is `none`). -/
theorem c4_completeness_violated_by_raw_text_status :
    (getSlide (enhance_units_endpoint cfgA helloOracle reqC4).lessons
        0 0 0).generated_outputs =
      [{ prompt_name := "p1", output := none, status := some "Hello" }] ∧
    "Hello" ∉ statusTaxonomy := by
  decide

/-- C5.  The `/enhance/units` scheduler loop terminates within its
`max_cycles = total_tasks × (max_api_retries + max_data_dependency_retries
+ 5)` budget for every request — including requests whose prompts form
dependency cycles that can never resolve: running the loop with fuel
`max_cycles + 1` already reaches the loop's own exit (both queues empty or
the counter past the budget), extra fuel changes nothing, and the cycle
counter never exceeds `max_cycles + 1` (the final increment being the one
the `break` check consumes). -/
theorem c5_scheduler_terminates_within_budget (cfg : Settings)
    (oracle : Nat → ModelOutcome) (request : EnhanceUnitsRequest) (k : Nat) :
    unitsLoop cfg oracle (request.prompts.getD []) (unitsMaxCycles cfg request)
        (unitsMaxCycles cfg request + 1 + k) (unitsInitState request) =
      unitsLoop cfg oracle (request.prompts.getD [])
        (unitsMaxCycles cfg request) (unitsMaxCycles cfg request + 1)
        (unitsInitState request) ∧
    unitsLoopExited (unitsMaxCycles cfg request)
      (unitsLoop cfg oracle (request.prompts.getD [])
        (unitsMaxCycles cfg request) (unitsMaxCycles cfg request + 1)
        (unitsInitState request)) ∧
    (unitsLoop cfg oracle (request.prompts.getD [])
        (unitsMaxCycles cfg request) (unitsMaxCycles cfg request + 1)
        (unitsInitState request)).processing_cycles ≤
      unitsMaxCycles cfg request + 1 := by
  refine ⟨?_, ?_, ?_⟩
  · exact unitsLoop_stable cfg oracle (request.prompts.getD [])
      (unitsMaxCycles cfg request) (unitsMaxCycles cfg request + 1)
      (by omega) (unitsInitState request) k (by simp [unitsInitState])
  · exact unitsLoop_exits cfg oracle (request.prompts.getD [])
      (unitsMaxCycles cfg request) (unitsMaxCycles cfg request + 1)
      (unitsInitState request) (by simp [unitsInitState])
  · have := unitsLoop_cycles_le cfg oracle (request.prompts.getD [])
      (unitsMaxCycles cfg request) (unitsMaxCycles cfg request + 1)
      (unitsInitState request)
    simpa [unitsInitState] using this

/-- C6 counterexample.  Prompt `b` references the prompt literally named
`"content"`; that prompt has produced no output on the slide, yet
resolution does not return `MISSING_DEPENDENCY` — the content-marker branch
shadows the prompt-name branch and resolution succeeds with the item's
content appended. -/
theorem c6_content_named_prompt_counterexample :
    promptContentNamed ∈ [promptContentNamed, promptB] ∧
    promptContentNamed.prompt_name ∈ promptB.lesson_properties_to_append ∧
    findOutput (generated_outputs slideC) promptContentNamed.prompt_name =
      none ∧
    _construct_full_prompt promptB slideC [promptContentNamed, promptB] ≠
      (PromptConstructionStatus.MISSING_DEPENDENCY, none) ∧
    _construct_full_prompt promptB slideC [promptContentNamed, promptB] =
      (PromptConstructionStatus.SUCCESS, some "tb\n---\nContent:\nc") := by
  decide

/-- C6 amended.  If prompt B's dependency list references a prompt of the
request whose name is not the literal content marker `"content"`, and that
prompt's GeneratedOutput on the item is absent, or has a status other than
`SUCCESS`, or has a null output, then resolving B on the item returns
`(MISSING_DEPENDENCY, null)` — and it does so for every continuation of the
dependency list, i.e. references after the unmet one are never evaluated on
that call. -/
theorem c6_missing_dependency_amended {α : Type} [ProcessableContentItem α]
    (B : PromptItem) (item : α) (prompts : List PromptItem) (aname : String)
    (href : aname ∈ B.lesson_properties_to_append)
    (hcontent : aname ≠ "content")
    (hknown : aname ∈ known_prompt_names prompts)
    (hunmet : ∀ g, findOutput (generated_outputs item) aname = some g →
      ¬ (g.status = some "SUCCESS" ∧ g.output ≠ none)) :
    ∀ (rest : List String),
      _construct_full_prompt
        { B with lesson_properties_to_append :=
            B.lesson_properties_to_append ++ rest } item prompts =
        (PromptConstructionStatus.MISSING_DEPENDENCY, none) := by
  intro rest
  unfold _construct_full_prompt
  apply construct_parts_missing
  refine ⟨aname, List.mem_append_left _ href, ?_⟩
  unfold dependency_unmet
  rw [if_neg hcontent, if_pos hknown]
  cases hfo : findOutput (generated_outputs item) aname with
  | none => rfl
  | some g =>
    dsimp only
    rw [if_neg (hunmet g hfo)]

/-- C6 witness: applying the amended theorem at concrete inputs, with a
later reference present after the unmet one. -/
theorem c6_missing_dependency_amended_witness :
    ("a" ∈ promptB2.lesson_properties_to_append ∧ "a" ≠ "content" ∧
      "a" ∈ known_prompt_names [promptA, promptB2]) ∧
    _construct_full_prompt
      { promptB2 with lesson_properties_to_append :=
          promptB2.lesson_properties_to_append ++ ["later_ref"] }
      slideC [promptA, promptB2] =
      (PromptConstructionStatus.MISSING_DEPENDENCY, none) :=
  ⟨by decide,
   c6_missing_dependency_amended promptB2 slideC [promptA, promptB2] "a"
     (by decide) (by decide) (by decide)
     (fun g hg => by
       rw [show findOutput (generated_outputs slideC) "a" = none from rfl] at hg
       exact Option.noConfusion hg)
     ["later_ref"]⟩

/-- C7 counterexample.  A content item whose request-supplied output list
already holds two entries for prompt name `"p"` still holds two entries
after any number of get-or-create calls — the claim's "exactly one entry"
fails; the calls return the first existing entry and create nothing. -/
theorem c7_duplicate_initial_entries_counterexample :
    countOutputs (generated_outputs slideDup) "p" = 2 ∧
    countOutputs (generated_outputs
      (get_or_create_output_item
        (get_or_create_output_item slideDup "p").1 "p").1) "p" = 2 ∧
    countOutputs (generated_outputs
      (get_or_create_output_item
        (get_or_create_output_item slideDup "p").1 "p").1) "p" ≠ 1 := by
  decide

/-- C7 amended.  Provided the item initially holds at most one output for
the prompt name (as every item the scheduler itself populates does), after
the first get-or-create call it holds exactly one entry for that name, and
every later call returns the same item, the same entry index and `created
= false` — so repeated calls never create a second entry. -/
theorem c7_get_or_create_amended {α : Type} [ProcessableContentItem α]
    (item : α) (name : String)
    (h : countOutputs (generated_outputs item) name ≤ 1) :
    countOutputs (generated_outputs
      (get_or_create_output_item item name).1) name = 1 ∧
    get_or_create_output_item (get_or_create_output_item item name).1 name =
      ((get_or_create_output_item item name).1,
       (get_or_create_output_item item name).2.1, false) := by
  cases hfi : find_output_index (generated_outputs item) name with
  | some i =>
    have h1 := countOutputs_pos_of_index_some _ _ _ hfi
    simp only [get_or_create_output_item, hfi]
    exact ⟨by omega, trivial⟩
  | none =>
    have h0 := countOutputs_eq_zero_of_index_none _ _ hfi
    have happ := find_output_index_append_self (generated_outputs item) name
      { prompt_name := name } rfl hfi
    simp only [get_or_create_output_item, hfi, outputs_set]
    constructor
    · rw [countOutputs_append, h0]
      simp
    · simp only [happ]

/-- C7 witness: applying the amended theorem at a fresh item. -/
theorem c7_get_or_create_amended_witness :
    countOutputs (generated_outputs slideC) "q" ≤ 1 ∧
    countOutputs (generated_outputs
      (get_or_create_output_item slideC "q").1) "q" = 1 ∧
    get_or_create_output_item (get_or_create_output_item slideC "q").1 "q" =
      ((get_or_create_output_item slideC "q").1,
       (get_or_create_output_item slideC "q").2.1, false) :=
  ⟨by decide,
   (c7_get_or_create_amended slideC "q" (by decide)).1,
   (c7_get_or_create_amended slideC "q" (by decide)).2⟩

/-- C8.  The claim says a batch of N analyze targets yields exactly N
per-target tagged results, with per-target exceptions isolated.  The code's
call site passes only 3 positional arguments to
`process_single_analyze_request`, which requires 4, so building the very
first coroutine raises `TypeError` and the batch call returns no per-target
results at all. -/
theorem c8_analyze_batch_call_raises :
    analyze_documents_endpoint perTargetOk [reqA1] =
      PyResult.raised "TypeError: process_single_analyze_request() missing 1 required positional argument: \x27gemini_analysis_service\x27" ∧
    ∀ results : List BatchAnalyzeItemResult,
      analyze_documents_endpoint perTargetOk [reqA1] ≠
        PyResult.ok results := by
  have h1 : analyze_documents_endpoint perTargetOk [reqA1] =
      PyResult.raised "TypeError: process_single_analyze_request() missing 1 required positional argument: \x27gemini_analysis_service\x27" := by
    decide
  refine ⟨h1, ?_⟩
  intro results h
  rw [h1] at h
  exact PyResult.noConfusion h

/-- C9.  For a prompt that is empty or whitespace-only, `generate_text`
returns status `"ERROR_INPUT"` with an explanatory message without invoking
the generative model (the result is the same for every model outcome);
`"ERROR_INPUT"` lies outside the spec's section 4.2 taxonomy; and the
invoker records it as a permanent, non-retried failure: the retry queue is
returned unchanged and the helper returns `False`. -/
theorem c9_empty_prompt_error_input {α χ : Type} [ProcessableContentItem α]
    (cfg : Settings) (o o2 : ModelOutcome) (ptext : String) (item : α)
    (pi : PromptItem) (att : Nat) (q : List (RetryTask χ)) (ctx : χ)
    (h : pyStrip ptext = "") :
    generate_text o ptext =
      ("ERROR_INPUT", some "Empty or invalid prompt text provided.") ∧
    generate_text o ptext = generate_text o2 ptext ∧
    "ERROR_INPUT" ∉ section42Taxonomy ∧
    (_execute_api_call_for_prompt cfg o item pi ptext att q ctx).2 =
      (q, false) ∧
    ((findOutput (generated_outputs
        (_execute_api_call_for_prompt cfg o item pi ptext att q ctx).1)
      pi.prompt_name).map (fun g => (g.status, g.output))) =
      some (some "ERROR_INPUT",
        some "Empty or invalid prompt text provided.") := by
  have hgt : ∀ o' : ModelOutcome, generate_text o' ptext =
      ("ERROR_INPUT", some "Empty or invalid prompt text provided.") := by
    intro o'
    unfold generate_text
    rw [if_pos (Or.inr h)]
  have hexec : ∀ o' : ModelOutcome,
      _execute_api_call_for_prompt cfg o' item pi ptext att q ctx =
        (updateOutputAt (get_or_create_output_item item pi.prompt_name).1
          (get_or_create_output_item item pi.prompt_name).2.1
          (fun g =>
            { g with status := some "ERROR_INPUT",
                     output := some "Empty or invalid prompt text provided." }),
         q, false) := by
    intro o'
    unfold _execute_api_call_for_prompt
    simp only [hgt o']
    rw [if_neg (show ¬ ("ERROR_INPUT" = "SUCCESS") by decide),
      if_neg (show ¬ ("ERROR_INPUT" = "RATE_LIMIT" ∨
        "ERROR_INPUT" = "ERROR_API") by decide)]
  refine ⟨hgt o, (hgt o).trans (hgt o2).symm, by decide, ?_, ?_⟩
  · rw [hexec o]
  · rw [hexec o]
    dsimp only
    rw [goc_update_findOutput item pi.prompt_name
      (fun g =>
        { g with status := some "ERROR_INPUT",
                 output := some "Empty or invalid prompt text provided." })
      (fun g => rfl)]
    rfl

/-- C9 witness: applying the theorem at a whitespace-only prompt. -/
theorem c9_empty_prompt_error_input_witness :
    pyStrip "   " = "" ∧
    generate_text (ModelOutcome.response "Hello") "   " =
      ("ERROR_INPUT", some "Empty or invalid prompt text provided.") ∧
    (_execute_api_call_for_prompt cfgA (ModelOutcome.response "Hello") slideC
        promptP1 "   " 0 ([] : List (RetryTask UnitsQueueContext)) ctxU0).2 =
      ([], false) :=
  ⟨by decide,
   (c9_empty_prompt_error_input cfgA (ModelOutcome.response "Hello")
     (ModelOutcome.raiseOther "x") "   " slideC promptP1 0
     ([] : List (RetryTask UnitsQueueContext)) ctxU0 (by decide)).1,
   (c9_empty_prompt_error_input cfgA (ModelOutcome.response "Hello")
     (ModelOutcome.raiseOther "x") "   " slideC promptP1 0
     ([] : List (RetryTask UnitsQueueContext)) ctxU0 (by decide)).2.2.2.1⟩

/-- C10.  An enhance request with a non-empty lessons list but no prompts
(`prompts` null or the empty list) is answered with a deep copy of the
input lessons — generated_outputs exactly as supplied — without entering
the scheduler and without any model call: the result is independent of the
model oracle, for both `/enhance/units` and `/enhance/lessons`. -/
theorem c10_no_prompts_returns_input_unchanged (cfg : Settings)
    (o1 o2 : Nat → ModelOutcome) (ru : EnhanceUnitsRequest)
    (rl : EnhanceLessonsRequest)
    (hru : ru.lessons ≠ []) (hu : ru.prompts = none ∨ ru.prompts = some [])
    (hrl : rl.lessons ≠ []) (hl : rl.prompts = none ∨ rl.prompts = some []) :
    enhance_units_endpoint cfg o1 ru = { lessons := ru.lessons } ∧
    enhance_units_endpoint cfg o2 ru = enhance_units_endpoint cfg o1 ru ∧
    enhance_simple_lessons_endpoint cfg o1 rl = { lessons := rl.lessons } ∧
    enhance_simple_lessons_endpoint cfg o2 rl =
      enhance_simple_lessons_endpoint cfg o1 rl := by
  have hu' : ru.prompts.getD [] = [] := by
    rcases hu with h | h <;> rw [h] <;> rfl
  have hl' : rl.prompts.getD [] = [] := by
    rcases hl with h | h <;> rw [h] <;> rfl
  have keyU : ∀ o : Nat → ModelOutcome,
      enhance_units_endpoint cfg o ru = { lessons := ru.lessons } := by
    intro o
    unfold enhance_units_endpoint
    rw [if_neg hru]
    dsimp only
    rw [hu']
    simp
  have keyL : ∀ o : Nat → ModelOutcome,
      enhance_simple_lessons_endpoint cfg o rl = { lessons := rl.lessons } := by
    intro o
    unfold enhance_simple_lessons_endpoint
    rw [if_neg hrl]
    dsimp only
    rw [hl']
    simp
  exact ⟨keyU o1, (keyU o2).trans (keyU o1).symm, keyL o1,
    (keyL o2).trans (keyL o1).symm⟩

/-- C10 witness: applying the theorem at concrete no-prompt requests; the
pre-existing generated output of the lessons request comes back untouched. -/
theorem c10_no_prompts_returns_input_unchanged_witness :
    reqNoPromptsUnits.lessons ≠ [] ∧ reqNoPromptsLessons.lessons ≠ [] ∧
    enhance_units_endpoint cfgA helloOracle reqNoPromptsUnits =
      { lessons := reqNoPromptsUnits.lessons } ∧
    enhance_simple_lessons_endpoint cfgA helloOracle reqNoPromptsLessons =
      { lessons := reqNoPromptsLessons.lessons } :=
  ⟨by decide, by decide,
   (c10_no_prompts_returns_input_unchanged cfgA helloOracle
     rateLimitTextOracle reqNoPromptsUnits reqNoPromptsLessons
     (by decide) (Or.inl rfl) (by decide) (Or.inr rfl)).1,
   (c10_no_prompts_returns_input_unchanged cfgA helloOracle
     rateLimitTextOracle reqNoPromptsUnits reqNoPromptsLessons
     (by decide) (Or.inl rfl) (by decide) (Or.inr rfl)).2.2.1⟩

end ContentApi
